import Mathlib

/-!
Verification development for the MALA atomic-density descriptor module
(`mala/descriptors/atomic_density.py`) and the feed-forward network
constructor (`mala/network/network.py`).

Modelling conventions:
* All numeric arithmetic of the Python code is embedded over `ℚ`.
* The transcendental numpy operations `np.exp` and `np.sqrt(2*np.pi)` are
  kept abstract: definitions that need them are parameterized by an
  arbitrary function `exp : ℚ → ℚ` and a scalar `sqrt2pi : ℚ`, so every
  theorem quantifying over them holds in particular for the actual values.
* Python exceptions are modelled with `Except`: a raised exception is an
  `Except.error` that propagates through `do`-blocks, exactly as an
  uncaught Python exception propagates.
* The mutation of the shared `parameters` object (the lazy sigma fill-in)
  is modelled by returning the updated parameter record alongside the
  result; the update is computed before the body that may raise, matching
  the statement order of the Python source.
-/

namespace Mala

/-- A 3-component real-space vector: one row of an ASE cell matrix, an atom
position, or a grid-point coordinate. -/
structure Vec3 where
  x : ℚ
  y : ℚ
  z : ℚ
  deriving DecidableEq, Repr

/-- Divide a vector componentwise by a scalar (numpy `row / n`). -/
def Vec3.sdiv (v : Vec3) (c : ℚ) : Vec3 :=
  ⟨v.x / c, v.y / c, v.z / c⟩

/-- A 3x3 simulation-cell matrix, stored as its three basis-vector rows,
following the ASE convention `cell[i, j]` = j-th Cartesian component of the
i-th basis vector. -/
structure Cell3 where
  r0 : Vec3
  r1 : Vec3
  r2 : Vec3
  deriving DecidableEq, Repr

/-- The largest of the nine matrix entries (numpy `np.max(voxel)`). -/
def Cell3.maxEntry (c : Cell3) : ℚ :=
  max (max (max c.r0.x c.r0.y) (max c.r0.z c.r1.x))
    (max (max c.r1.y c.r1.z) (max (max c.r2.x c.r2.y) c.r2.z))

/-- Empirical Gaussian width for aluminium (`optimal_sigma_aluminium`,
atomic_density.py line 26). -/
def optimal_sigma_aluminium : ℚ := 0.2

/-- Reference grid spacing for aluminium
(`reference_grid_spacing_aluminium`, atomic_density.py line 27). -/
def reference_grid_spacing_aluminium : ℚ := 0.08099000022712448

/-- `AtomicDensity.get_optimal_sigma` (lines 103-119):
`(np.max(voxel) / reference_grid_spacing_aluminium) * optimal_sigma_aluminium`. -/
def get_optimal_sigma (voxel : Cell3) : ℚ :=
  (voxel.maxEntry / reference_grid_spacing_aluminium) * optimal_sigma_aluminium

/-- The voxel matrix: each cell row divided by the corresponding grid
dimension (lines 225-228 and 145-148). -/
def voxelOf (cell : Cell3) (nx ny nz : ℕ) : Cell3 :=
  ⟨cell.r0.sdiv nx, cell.r1.sdiv ny, cell.r2.sdiv nz⟩

/-- The kernel-parameter slice of the shared `mala.common.parameters`
object read and written by the descriptor calculation. -/
structure Params where
  atomic_density_sigma : Option ℚ
  atomic_density_cutoff : ℚ
  descriptors_contain_xyz : Bool
  deriving DecidableEq, Repr

/-- The lazy sigma fill-in performed by both descriptor paths
(lines 236-238 in `__calculate_python`, lines 143-150 in
`__calculate_lammps`): if `atomic_density_sigma` is unset, store
`get_optimal_sigma(voxel)` into the shared parameters object; otherwise
leave the object untouched. -/
def ensureSigma (voxel : Cell3) (p : Params) : Params :=
  match p.atomic_density_sigma with
  | none => { p with atomic_density_sigma := some (get_optimal_sigma voxel) }
  | some _ => p

/-- The expression assigned to `distance_squared` by the source
(lines 285-287): `np.sum(positions[a] - gaussian_descriptors_np[i,j,k,0:3])`,
i.e. the PLAIN SUM of the components of the displacement vector, with no
squaring step. -/
def codeDistanceSquared (pos coord : Vec3) : ℚ :=
  (pos.x - coord.x) + (pos.y - coord.y) + (pos.z - coord.z)

/-- The squared Euclidean norm of the displacement between an atom position
and a grid-point coordinate (the quantity the spec calls `d²`). -/
def sqEuclid (pos coord : Vec3) : ℚ :=
  (pos.x - coord.x) ^ 2 + (pos.y - coord.y) ^ 2 + (pos.z - coord.z) ^ 2

/-- `prefactor = 1.0 / (sigma * np.sqrt(2*np.pi)) ** 3` (line 241),
with `np.sqrt(2*np.pi)` abstracted as `sqrt2pi`. -/
def prefactorOf (sqrt2pi sigma : ℚ) : ℚ :=
  1 / (sigma * sqrt2pi) ^ 3

/-- `argumentfactor = 1.0 / (2.0 * sigma * sigma)` (lines 242-243). -/
def argumentfactorOf (sigma : ℚ) : ℚ :=
  1 / (2 * sigma * sigma)

/-- The density contribution of one atom at one grid point as the source
computes it (lines 284-290): gate and exponent both use
`codeDistanceSquared`, the unsquared component sum. -/
def codeContribution (exp : ℚ → ℚ) (sqrt2pi sigma cutoff : ℚ)
    (pos coord : Vec3) : ℚ :=
  if codeDistanceSquared pos coord < cutoff * cutoff then
    prefactorOf sqrt2pi sigma *
      exp (-(codeDistanceSquared pos coord) * argumentfactorOf sigma)
  else 0

/-- The density contribution as the spec words it (spec section 4.2):
`prefactor * exp(-d² * exponentFactor)` when `d² < cutoff²` and `0`
otherwise, with `d²` the squared Euclidean norm of the displacement.
Stated only to be compared against `codeContribution`. -/
def specContribution (exp : ℚ → ℚ) (sqrt2pi sigma cutoff : ℚ)
    (pos coord : Vec3) : ℚ :=
  if sqEuclid pos coord < cutoff * cutoff then
    prefactorOf sqrt2pi sigma *
      exp (-(sqEuclid pos coord) * argumentfactorOf sigma)
  else 0

/-- Orthorhombic grid-point coordinate (lines 252-254):
`np.diag(voxel) * [i, j, k]`. -/
def gridCoordOrtho (voxel : Cell3) (i j k : ℕ) : Vec3 :=
  ⟨voxel.r0.x * i, voxel.r1.y * j, voxel.r2.z * k⟩

/-- Triclinic grid-point coordinate exactly as the source computes it
(lines 256-266).  Note the y component reads `atoms.cell[1, 2]`
(here `cell.r1.z`) for the k term. -/
def gridCoordTriclinic (cell : Cell3) (nx ny nz i j k : ℕ) : Vec3 :=
  ⟨(i : ℚ) / nx * cell.r0.x + (j : ℚ) / ny * cell.r1.x +
      (k : ℚ) / nz * cell.r2.x,
   (j : ℚ) / ny * cell.r1.y + (k : ℚ) / nz * cell.r1.z,
   (k : ℚ) / nz * cell.r2.z⟩

/-- Triclinic grid-point coordinate as the spec words it (spec section 4.1,
the LAMMPS lower-triangular convention of domain.cpp): the y component is
`j/ny * cell[1,1] + k/nz * cell[2,1]` (here `cell.r2.y`, the yz tilt).
Stated only to be compared against `gridCoordTriclinic`. -/
def specGridCoordTriclinic (cell : Cell3) (nx ny nz i j k : ℕ) : Vec3 :=
  ⟨(i : ℚ) / nx * cell.r0.x + (j : ℚ) / ny * cell.r1.x +
      (k : ℚ) / nz * cell.r2.x,
   (j : ℚ) / ny * cell.r1.y + (k : ℚ) / nz * cell.r2.y,
   (k : ℚ) / nz * cell.r2.z⟩

/-- The slice of an ASE `Atoms` object that the descriptor calculation
reads: the cell matrix, its orthorhombic flag, and the atom positions. -/
structure Atoms where
  cell : Cell3
  orthorhombic : Bool
  positions : List Vec3

/-- The per-grid-point coordinate computed by `__calculate_python`
(lines 248-266): orthorhombic and triclinic cells are treated
differently. -/
def gridCoord (atoms : Atoms) (nx ny nz i j k : ℕ) : Vec3 :=
  if atoms.orthorhombic then
    gridCoordOrtho (voxelOf atoms.cell nx ny nz) i j k
  else
    gridCoordTriclinic atoms.cell nx ny nz i j k

/-- Python exceptions that the embedded code can raise. -/
inductive PyErr where
  | typeErrorNdarrayNotCallable
  | other (msg : String)
  deriving DecidableEq, Repr

/-- Python semantics of applying call syntax to a `numpy.ndarray` value:
an ndarray is not callable, so `indices()` raises
`TypeError: 'numpy.ndarray' object is not callable`. -/
def ndarrayCall {α : Type} (_a : List ℕ) : Except PyErr α :=
  .error .typeErrorNdarrayNotCallable

/-- One iteration of the grid loop of `__calculate_python`
(lines 248-290) for the grid index `(i, j, k)`: compute the coordinate
channels, build the neighbor list, query it, and evaluate
`indices_nogrid = indices()` (line 282) before the density loop.
The ASE neighbor-list query is abstracted as the function `nl` mapping the
extended position list and the query index to the returned index array. -/
def gridPointValue (exp : ℚ → ℚ) (sqrt2pi : ℚ)
    (nl : List Vec3 → ℕ → List ℕ) (atoms : Atoms) (sigma cutoff : ℚ)
    (nx ny nz i j k : ℕ) : Except PyErr (Vec3 × ℚ) := do
  let coord := gridCoord atoms nx ny nz i j k
  let _cutoffs := List.replicate (atoms.positions.length + 1) cutoff
  let withGrid := atoms.positions ++ [coord]
  let indices := nl withGrid atoms.positions.length
  let _nogrid := (List.range indices.length).filter
    (fun t => indices.getD t 0 < atoms.positions.length)
  let _indices_nogrid ← (ndarrayCall indices : Except PyErr (List ℕ))
  let density := atoms.positions.foldl
    (fun acc pos => acc + codeContribution exp sqrt2pi sigma cutoff pos coord) 0
  return (coord, density)

/-- The `k`-outer / `j`-middle / `i`-inner grid loop of
`__calculate_python` (lines 245-290), accumulating one entry per grid
point; the first raised exception aborts the whole loop. -/
def calculatePythonRun (exp : ℚ → ℚ) (sqrt2pi : ℚ)
    (nl : List Vec3 → ℕ → List ℕ) (atoms : Atoms) (sigma cutoff : ℚ)
    (nx ny nz : ℕ) : Except PyErr (List ((ℕ × ℕ × ℕ) × Vec3 × ℚ)) :=
  (List.range nz).foldlM (fun accK k =>
    (List.range ny).foldlM (fun accJ j =>
      (List.range nx).foldlM (fun accI i => do
        let v ← gridPointValue exp sqrt2pi nl atoms sigma cutoff nx ny nz i j k
        pure (accI ++ [((i, j, k), v)])) accJ) accK) []

/-- `AtomicDensity.__calculate_python` (lines 224-292).  The first
component is the computation's outcome (density field or raised
exception); the second component is the state of the shared parameters
object after the call, updated by the sigma fill-in (lines 236-238) before
the grid loop starts. -/
def calculatePython (exp : ℚ → ℚ) (sqrt2pi : ℚ)
    (nl : List Vec3 → ℕ → List ℕ) (atoms : Atoms) (nx ny nz : ℕ)
    (p : Params) : Except PyErr (List ((ℕ × ℕ × ℕ) × Vec3 × ℚ)) × Params :=
  let voxel := voxelOf atoms.cell nx ny nz
  let p2 := ensureSigma voxel p
  let sigma := p2.atomic_density_sigma.getD 0
  let cutoff := p.atomic_density_cutoff
  (calculatePythonRun exp sqrt2pi nl atoms sigma cutoff nx ny nz, p2)

/-- A 2-dimensional numpy array of shape `(rows, cols)` in C (row-major)
order, as handed back by the LAMMPS extraction. -/
structure NpArray2 where
  rows : ℕ
  cols : ℕ
  entry : ℕ → ℕ → ℚ

/-- The flat (C-order) view of a 2-dimensional array: flat index `f` holds
`entry (f / cols) (f % cols)`. -/
def NpArray2.flat (a : NpArray2) (f : ℕ) : ℚ :=
  a.entry (f / a.cols) (f % a.cols)

/-- A 4-dimensional numpy array of shape `(d0, d1, d2, d3)`. -/
structure NpArray4 where
  d0 : ℕ
  d1 : ℕ
  d2 : ℕ
  d3 : ℕ
  entry : ℕ → ℕ → ℕ → ℕ → ℚ

/-- numpy `reshape((n0, n1, n2, n3))` of a 2-dimensional array: the
multi-index `(i0, i1, i2, i3)` reads the C-order flat element
`((i0*n1 + i1)*n2 + i2)*n3 + i3` (lines 208-212). -/
def reshape4 (n0 n1 n2 n3 : ℕ) (a : NpArray2) : NpArray4 :=
  ⟨n0, n1, n2, n3, fun i0 i1 i2 i3 =>
    a.flat (((i0 * n1 + i1) * n2 + i2) * n3 + i3)⟩

/-- numpy `transpose([2, 1, 0, 3])` (lines 213-214): the axis permutation
is its own inverse, so the transposed array reads `T[x,y,z,c] = A[z,y,x,c]`
and swaps the first and third shape entries. -/
def NpArray4.transpose2103 (a : NpArray4) : NpArray4 :=
  ⟨a.d2, a.d1, a.d0, a.d3, fun x y z c => a.entry z y x c⟩

/-- numpy slice `[:, :, :, s:]` (lines 217 and 221): drop the first `s`
channels of the last axis. -/
def NpArray4.sliceFrom (a : NpArray4) (s : ℕ) : NpArray4 :=
  ⟨a.d0, a.d1, a.d2, a.d3 - s, fun x y z c => a.entry x y z (s + c)⟩

/-- A numpy array of either dimensionality that `__calculate_lammps` can
hand back. -/
inductive NdResult where
  | arr2 (a : NpArray2)
  | arr4 (a : NpArray4)

/-- Number of dimensions (`numpy.ndarray.ndim`) of a returned array. -/
def NdResult.ndim : NdResult → ℕ
  | .arr2 _ => 2
  | .arr4 _ => 4

/-- The visible outcome of one `__calculate_lammps` call: the returned
array, the second tuple element when the call returns a pair (row count or
total grid-point count; `none` when `return_directly` short-circuits to a
bare array), and the `fingerprint_length` attribute of the calculator
after the call. -/
structure LammpsOut where
  data : NdResult
  count : Option ℕ
  fingerprint_length : Option ℕ

/-- `AtomicDensity.__calculate_lammps` (lines 129-222) from the point
where the engine output is available.

Modelled from the spec: `extract_compute_np` lives in
`mala.descriptors.lammps_utils`, which is not part of the sources; per
spec section 4.5(a) and the call-site argument
`array_shape=(nrows_ggrid, ncols_ggrid)` (lines 180-184) it delivers the
engine's row-per-contribution table as a 2-dimensional `rows x cols` array,
modelled here by the input `ggrid`.

The embedding covers the sigma fill-in (lines 143-150, before the engine
run), the distributed (`mpi`) branch (lines 191-196), the serial
`return_directly` branch (lines 202-203), and the serial full-mode
reshape/transpose/slice post-processing (lines 204-222).  `fpl0` is the
`fingerprint_length` attribute before the call; the parameters state after
the call is returned as the second component. -/
def calculateLammps (mpi return_directly : Bool) (cell : Cell3)
    (nx ny nz : ℕ) (ggrid : NpArray2) (p : Params) (fpl0 : Option ℕ) :
    LammpsOut × Params :=
  let p2 := ensureSigma (voxelOf cell nx ny nz) p
  if mpi then
    if return_directly then (⟨.arr2 ggrid, none, fpl0⟩, p2)
    else (⟨.arr2 ggrid, some ggrid.rows, some 4⟩, p2)
  else
    if return_directly then (⟨.arr2 ggrid, none, fpl0⟩, p2)
    else
      let t := (reshape4 nz ny nx 7 ggrid).transpose2103
      if p.descriptors_contain_xyz then
        (⟨.arr4 (t.sliceFrom 3), some (nx * ny * nz), some 4⟩, p2)
      else
        (⟨.arr4 (t.sliceFrom 6), some (nx * ny * nz), some 1⟩, p2)

/-- The keys of `Network.activation_mappings` (network.py lines 74-79). -/
def activation_mappings : List String :=
  ["Sigmoid", "ReLU", "LeakyReLU", "Tanh"]

/-- Exceptions raised by `FeedForwardNet.__init__`
(network.py lines 200-223). -/
inductive NetErr where
  | notEnoughActivationLayers
  | tooManyActivationLayers
  | invalidActivationType
  deriving DecidableEq, Repr

/-- Python `l * n` for a list: `n` concatenated copies of `l` (empty for
`n <= 0`). -/
def listTimes {α : Type} (l : List α) (n : ℤ) : List α :=
  (List.replicate n.toNat l).flatten

/-- The activation-list handling of `FeedForwardNet.__init__`
(network.py lines 200-223): with `number_of_layers = len(layer_sizes) - 1`
(line 82), a length-1 activation list is first replicated by
`self.params.layer_activations *= self.number_of_layers` (lines 205-206);
then a list shorter than `number_of_layers` raises "Not enough activation
layers provided." and a longer one raises "Too many activation layers
provided." (lines 208-211); finally the construction loop (lines 216-223)
looks every used activation name up in `activation_mappings` and raises
"Invalid activation type seleceted." on a missing key.  The result is the
activation list actually used, one entry per layer. -/
def ffActivations (layer_sizes : List ℕ) (acts0 : List String) :
    Except NetErr (List String) :=
  let number_of_layers : ℤ := (layer_sizes.length : ℤ) - 1
  let acts := if acts0.length = 1 then listTimes acts0 number_of_layers
    else acts0
  if (acts.length : ℤ) < number_of_layers then
    .error .notEnoughActivationLayers
  else if number_of_layers < (acts.length : ℤ) then
    .error .tooManyActivationLayers
  else if acts.all (fun s => activation_mappings.contains s) then
    .ok acts
  else .error .invalidActivationType

/-- The raised-exception outcome of the unit-conversion helpers. -/
inductive UnitErr where
  | unsupportedUnit
  deriving DecidableEq, Repr

/-- `AtomicDensity.convert_units` (lines 53-76): the unit argument is
either a Python string (`some s`) or the Python value `None` (`none`); the
array passes through unchanged when `in_units == "None" or in_units is
None`, and every other unit raises "Unsupported unit for Gaussian
descriptors.". -/
def convert_units (array : List ℚ) (in_units : Option String) :
    Except UnitErr (List ℚ) :=
  if in_units = some "None" ∨ in_units = none then .ok array
  else .error .unsupportedUnit

/-- `AtomicDensity.backconvert_units` (lines 78-101): the array passes
through unchanged only when `out_units == "None"`; every other unit raises
"Unsupported unit for Gaussian descriptors.". -/
def backconvert_units (array : List ℚ) (out_units : Option String) :
    Except UnitErr (List ℚ) :=
  if out_units = some "None" then .ok array
  else .error .unsupportedUnit

/-- Folding an `Except`-valued step over `List.range n` with `n > 0` fails
immediately when the step fails on the first index. -/
theorem foldlM_range_error {β : Type} {e : PyErr} (f : β → ℕ → Except PyErr β)
    (b : β) (n : ℕ) (hn : 0 < n) (h : f b 0 = Except.error e) :
    (List.range n).foldlM f b = Except.error e := by
  cases n with
  | zero => exact absurd hn (by simp)
  | succ m =>
    rw [List.range_succ_eq_map, List.foldlM_cons, h]
    rfl

/-- Claim C1.  The reference kernel is claimed to add
`prefactor * exp(-d^2 * exponentFactor)` when `d^2 < cutoff^2` (else `0`)
with `d^2` the squared Euclidean norm of the displacement.  The code
instead sums the raw displacement components: for an atom at `(3,0,0)` and
a grid point at `(0,3,0)` the code's `distance_squared` is `0` while the
true squared distance is `18`, so with `cutoff = 1` the code adds the full
peak value `prefactor * exp 0` where the claimed formula yields `0`
(stated for every abstraction `exp` of `np.exp`). -/
theorem C1_distance_not_squared :
    ∀ exp : ℚ → ℚ,
      codeDistanceSquared ⟨3, 0, 0⟩ ⟨0, 3, 0⟩ = 0
      ∧ sqEuclid ⟨3, 0, 0⟩ ⟨0, 3, 0⟩ = 18
      ∧ codeContribution exp (5/2) 1 1 ⟨3, 0, 0⟩ ⟨0, 3, 0⟩
          = prefactorOf (5/2) 1 * exp 0
      ∧ specContribution exp (5/2) 1 1 ⟨3, 0, 0⟩ ⟨0, 3, 0⟩ = 0 := by
  intro exp
  have hc : codeDistanceSquared ⟨3, 0, 0⟩ ⟨0, 3, 0⟩ = 0 := by
    norm_num [codeDistanceSquared]
  have hs : sqEuclid ⟨3, 0, 0⟩ ⟨0, 3, 0⟩ = 18 := by
    norm_num [sqEuclid]
  refine ⟨hc, hs, ?_, ?_⟩
  · unfold codeContribution
    rw [hc]
    norm_num
  · unfold specContribution
    rw [hs]
    norm_num

/-- Claim C2.  For every input with all three grid dimensions positive,
the direct python path raises a `TypeError` at the first grid point: line
282 applies call syntax to the numpy index array returned by the neighbor
list, so the loop aborts before any density is accumulated and the normal
return is unreachable. -/
theorem C2_python_path_always_raises :
    ∀ (exp : ℚ → ℚ) (sqrt2pi : ℚ) (nl : List Vec3 → ℕ → List ℕ)
      (atoms : Atoms) (sigma cutoff : ℚ) (nx ny nz : ℕ) (p : Params),
      0 < nx → 0 < ny → 0 < nz →
      gridPointValue exp sqrt2pi nl atoms sigma cutoff nx ny nz 0 0 0
        = Except.error PyErr.typeErrorNdarrayNotCallable
      ∧ (calculatePython exp sqrt2pi nl atoms nx ny nz p).1
        = Except.error PyErr.typeErrorNdarrayNotCallable := by
  intro exp sqrt2pi nl atoms sigma cutoff nx ny nz p hx hy hz
  have hg : ∀ (s c : ℚ) (i j k : ℕ),
      gridPointValue exp sqrt2pi nl atoms s c nx ny nz i j k
        = Except.error PyErr.typeErrorNdarrayNotCallable :=
    fun s c i j k => rfl
  refine ⟨hg sigma cutoff 0 0 0, ?_⟩
  show calculatePythonRun exp sqrt2pi nl atoms _ _ nx ny nz = _
  unfold calculatePythonRun
  apply foldlM_range_error _ _ _ hz
  apply foldlM_range_error _ _ _ hy
  apply foldlM_range_error _ _ _ hx
  rw [show (do
      let v ← gridPointValue exp sqrt2pi nl atoms
        ((ensureSigma (voxelOf atoms.cell nx ny nz) p).atomic_density_sigma.getD 0)
        p.atomic_density_cutoff nx ny nz 0 0 0
      pure (([] : List ((ℕ × ℕ × ℕ) × Vec3 × ℚ)) ++ [((0, 0, 0), v)]) :
        Except PyErr (List ((ℕ × ℕ × ℕ) × Vec3 × ℚ))) =
      Except.error PyErr.typeErrorNdarrayNotCallable from by
    rw [show gridPointValue exp sqrt2pi nl atoms
        ((ensureSigma (voxelOf atoms.cell nx ny nz) p).atomic_density_sigma.getD 0)
        p.atomic_density_cutoff nx ny nz 0 0 0
        = Except.error PyErr.typeErrorNdarrayNotCallable from hg _ _ 0 0 0]
    rfl]

/-- Witness for C2 at a concrete 1x1x1 grid with one atom. -/
theorem C2_witness :
    (calculatePython (fun q => q) 1 (fun _ _ => [])
      ⟨⟨⟨1, 0, 0⟩, ⟨0, 1, 0⟩, ⟨0, 0, 1⟩⟩, true, [⟨0, 0, 0⟩]⟩ 1 1 1
      ⟨none, 1, true⟩).1
      = Except.error PyErr.typeErrorNdarrayNotCallable :=
  (C2_python_path_always_raises (fun q => q) 1 (fun _ _ => [])
    ⟨⟨⟨1, 0, 0⟩, ⟨0, 1, 0⟩, ⟨0, 0, 1⟩⟩, true, [⟨0, 0, 0⟩]⟩ 0 1 1 1 1
    ⟨none, 1, true⟩ (by decide) (by decide) (by decide)).2

/-- Claim C3.  The claimed triclinic y formula is
`j/ny * cell[1,1] + k/nz * cell[2,1]`; the code reads `cell[1,2]` instead
of `cell[2,1]` (line 263).  For the lower-triangular cell with rows
`(2,0,0), (0,2,0), (0,1,2)` (yz tilt `cell[2,1] = 1`, `cell[1,2] = 0`) and
grid index `(0,0,1)` of a `1x1x2` grid, the code yields `y = 0` while the
claimed formula yields `y = 1/2`. -/
theorem C3_triclinic_uses_wrong_tilt :
    gridCoordTriclinic ⟨⟨2, 0, 0⟩, ⟨0, 2, 0⟩, ⟨0, 1, 2⟩⟩ 1 1 2 0 0 1
        ≠ specGridCoordTriclinic ⟨⟨2, 0, 0⟩, ⟨0, 2, 0⟩, ⟨0, 1, 2⟩⟩ 1 1 2 0 0 1
    ∧ (gridCoordTriclinic ⟨⟨2, 0, 0⟩, ⟨0, 2, 0⟩, ⟨0, 1, 2⟩⟩ 1 1 2 0 0 1).y = 0
    ∧ (specGridCoordTriclinic
        ⟨⟨2, 0, 0⟩, ⟨0, 2, 0⟩, ⟨0, 1, 2⟩⟩ 1 1 2 0 0 1).y = 1 / 2 := by
  have h1 : (gridCoordTriclinic
      ⟨⟨2, 0, 0⟩, ⟨0, 2, 0⟩, ⟨0, 1, 2⟩⟩ 1 1 2 0 0 1).y = 0 := by
    norm_num [gridCoordTriclinic]
  have h2 : (specGridCoordTriclinic
      ⟨⟨2, 0, 0⟩, ⟨0, 2, 0⟩, ⟨0, 1, 2⟩⟩ 1 1 2 0 0 1).y = 1 / 2 := by
    norm_num [specGridCoordTriclinic]
  refine ⟨fun h => ?_, h1, h2⟩
  rw [h, h2] at h1
  norm_num at h1

/-- Claim C4.  Reshaping the accelerated path's full-mode buffer to
`(nz, ny, nx, 7)` and transposing with axes `(2, 1, 0, 3)` maps the
canonical index `(x, y, z, c)` to the buffer element at native flat index
`z*ny*nx*7 + y*nx*7 + x*7 + c`, for all in-range indices. -/
theorem C4_reshape_transpose_roundtrip :
    ∀ (a : NpArray2) (nx ny nz x y z c : ℕ),
      x < nx → y < ny → z < nz → c < 7 →
      ((reshape4 nz ny nx 7 a).transpose2103).entry x y z c
        = a.flat (z * ny * nx * 7 + y * nx * 7 + x * 7 + c) := by
  intro a nx ny nz x y z c hx hy hz hc
  show a.flat (((z * ny + y) * nx + x) * 7 + c) = _
  congr 1
  ring

/-- Witness for C4 on a 1x1x1 grid with a marker buffer. -/
theorem C4_witness :
    ((reshape4 1 1 1 7 ⟨1, 7, fun i j => ((i * 7 + j : ℕ) : ℚ)⟩).transpose2103).entry
        0 0 0 2
      = NpArray2.flat ⟨1, 7, fun i j => ((i * 7 + j : ℕ) : ℚ)⟩
          (0 * 1 * 1 * 7 + 0 * 1 * 7 + 0 * 7 + 2) :=
  C4_reshape_transpose_roundtrip ⟨1, 7, fun i j => ((i * 7 + j : ℕ) : ℚ)⟩
    1 1 1 0 0 0 2 (by decide) (by decide) (by decide) (by decide)

/-- Claim C5.  In the accelerated path's serial full mode with the
raw-return flag unset: with `descriptors_contain_xyz` on, the returned
array is the channel slice of the reshaped/transposed buffer starting at
index 3 (4 channels) and the recorded feature size is 4; with it off, the
slice starts at index 6 (1 channel) and the feature size is 1; both return
`nx*ny*nz` as the second value. -/
theorem C5_serial_full_mode_contract :
    ∀ (cell : Cell3) (nx ny nz : ℕ) (ggrid : NpArray2) (p : Params)
      (fpl0 : Option ℕ),
      (p.descriptors_contain_xyz = true →
        (calculateLammps false false cell nx ny nz ggrid p fpl0).1 =
          ⟨.arr4 (((reshape4 nz ny nx 7 ggrid).transpose2103).sliceFrom 3),
            some (nx * ny * nz), some 4⟩
        ∧ (((reshape4 nz ny nx 7 ggrid).transpose2103).sliceFrom 3).d3 = 4)
      ∧ (p.descriptors_contain_xyz = false →
        (calculateLammps false false cell nx ny nz ggrid p fpl0).1 =
          ⟨.arr4 (((reshape4 nz ny nx 7 ggrid).transpose2103).sliceFrom 6),
            some (nx * ny * nz), some 1⟩
        ∧ (((reshape4 nz ny nx 7 ggrid).transpose2103).sliceFrom 6).d3 = 1) := by
  intro cell nx ny nz ggrid p fpl0
  constructor
  · intro h
    exact ⟨by simp [calculateLammps, h], rfl⟩
  · intro h
    exact ⟨by simp [calculateLammps, h], rfl⟩

/-- Witness for C5: both flag values at a concrete input. -/
theorem C5_witness :
    ((calculateLammps false false ⟨⟨1, 0, 0⟩, ⟨0, 1, 0⟩, ⟨0, 0, 1⟩⟩ 1 1 1
        ⟨1, 7, fun _ _ => 0⟩ ⟨some 1, 1, true⟩ none).1 =
      ⟨.arr4 (((reshape4 1 1 1 7 ⟨1, 7, fun _ _ => 0⟩).transpose2103).sliceFrom 3),
        some (1 * 1 * 1), some 4⟩)
    ∧ ((calculateLammps false false ⟨⟨1, 0, 0⟩, ⟨0, 1, 0⟩, ⟨0, 0, 1⟩⟩ 1 1 1
        ⟨1, 7, fun _ _ => 0⟩ ⟨some 1, 1, false⟩ none).1 =
      ⟨.arr4 (((reshape4 1 1 1 7 ⟨1, 7, fun _ _ => 0⟩).transpose2103).sliceFrom 6),
        some (1 * 1 * 1), some 1⟩) :=
  ⟨((C5_serial_full_mode_contract ⟨⟨1, 0, 0⟩, ⟨0, 1, 0⟩, ⟨0, 0, 1⟩⟩ 1 1 1
      ⟨1, 7, fun _ _ => 0⟩ ⟨some 1, 1, true⟩ none).1 rfl).1,
   ((C5_serial_full_mode_contract ⟨⟨1, 0, 0⟩, ⟨0, 1, 0⟩, ⟨0, 0, 1⟩⟩ 1 1 1
      ⟨1, 7, fun _ _ => 0⟩ ⟨some 1, 1, false⟩ none).2 rfl).1⟩

/-- Claim C6.  On either descriptor path, an unset sigma is filled in
exactly once with `get_optimal_sigma` of the voxel derived from the cell
and grid dimensions; a subsequent call with the same parameters object
leaves the cached sigma unchanged; a pre-set sigma is left unchanged; and
no other kernel-parameter field (the cutoff, the xyz flag) is modified.
The last two conjuncts identify the parameter update performed by
`__calculate_python` and `__calculate_lammps` with `ensureSigma`. -/
theorem C6_sigma_write_once :
    ∀ (cell : Cell3) (nx ny nz : ℕ) (p : Params) (exp : ℚ → ℚ)
      (sqrt2pi : ℚ) (nl : List Vec3 → ℕ → List ℕ) (ortho : Bool)
      (posns : List Vec3) (mpi rd : Bool) (ggrid : NpArray2)
      (fpl0 : Option ℕ),
      (p.atomic_density_sigma = none →
        (ensureSigma (voxelOf cell nx ny nz) p).atomic_density_sigma
          = some (get_optimal_sigma (voxelOf cell nx ny nz)))
      ∧ (∀ s, p.atomic_density_sigma = some s →
          ensureSigma (voxelOf cell nx ny nz) p = p)
      ∧ ensureSigma (voxelOf cell nx ny nz)
          (ensureSigma (voxelOf cell nx ny nz) p)
          = ensureSigma (voxelOf cell nx ny nz) p
      ∧ (ensureSigma (voxelOf cell nx ny nz) p).atomic_density_cutoff
          = p.atomic_density_cutoff
      ∧ (ensureSigma (voxelOf cell nx ny nz) p).descriptors_contain_xyz
          = p.descriptors_contain_xyz
      ∧ (calculatePython exp sqrt2pi nl ⟨cell, ortho, posns⟩ nx ny nz p).2
          = ensureSigma (voxelOf cell nx ny nz) p
      ∧ (calculateLammps mpi rd cell nx ny nz ggrid p fpl0).2
          = ensureSigma (voxelOf cell nx ny nz) p := by
  intro cell nx ny nz p exp sqrt2pi nl ortho posns mpi rd ggrid fpl0
  refine ⟨?_, ?_, ?_, ?_, ?_, rfl, ?_⟩
  · intro h
    simp [ensureSigma, h]
  · intro s h
    simp [ensureSigma, h]
  · cases h : p.atomic_density_sigma <;> simp [ensureSigma, h]
  · cases h : p.atomic_density_sigma <;> simp [ensureSigma, h]
  · cases h : p.atomic_density_sigma <;> simp [ensureSigma, h]
  · cases mpi <;> cases rd <;> cases hx : p.descriptors_contain_xyz <;>
      simp [calculateLammps, hx]

/-- Witness for C6: a fresh parameters object gets the derived sigma, and
a pre-set sigma survives a call. -/
theorem C6_witness :
    (ensureSigma (voxelOf ⟨⟨1, 0, 0⟩, ⟨0, 1, 0⟩, ⟨0, 0, 1⟩⟩ 1 1 1)
        ⟨none, 7, true⟩).atomic_density_sigma
      = some (get_optimal_sigma (voxelOf ⟨⟨1, 0, 0⟩, ⟨0, 1, 0⟩, ⟨0, 0, 1⟩⟩ 1 1 1))
    ∧ ensureSigma (voxelOf ⟨⟨1, 0, 0⟩, ⟨0, 1, 0⟩, ⟨0, 0, 1⟩⟩ 1 1 1)
        ⟨some 2, 7, true⟩ = ⟨some 2, 7, true⟩ :=
  ⟨(C6_sigma_write_once ⟨⟨1, 0, 0⟩, ⟨0, 1, 0⟩, ⟨0, 0, 1⟩⟩ 1 1 1
      ⟨none, 7, true⟩ (fun q => q) 1 (fun _ _ => []) true [] false false
      ⟨1, 7, fun _ _ => 0⟩ none).1 rfl,
   (C6_sigma_write_once ⟨⟨1, 0, 0⟩, ⟨0, 1, 0⟩, ⟨0, 0, 1⟩⟩ 1 1 1
      ⟨some 2, 7, true⟩ (fun q => q) 1 (fun _ _ => []) true [] false false
      ⟨1, 7, fun _ _ => 0⟩ none).2.1 2 rfl⟩

/-- Counterexample for claim C7: in distributed (mpi) mode with the
raw-return flag unset, the returned array is the engine's 2-dimensional
rows-by-cols table, not a 4D array. -/
theorem C7_counterexample_distributed_not_4d :
    ((calculateLammps true false ⟨⟨1, 0, 0⟩, ⟨0, 1, 0⟩, ⟨0, 0, 1⟩⟩ 2 2 2
        ⟨5, 7, fun _ _ => 0⟩ ⟨some 1, 1, true⟩ none).1.data.ndim = 2)
    ∧ ((calculateLammps true false ⟨⟨1, 0, 0⟩, ⟨0, 1, 0⟩, ⟨0, 0, 1⟩⟩ 2 2 2
        ⟨5, 7, fun _ _ => 0⟩ ⟨some 1, 1, true⟩ none).1.data.ndim ≠ 4) :=
  ⟨rfl, by simp [calculateLammps, NdResult.ndim]⟩

/-- Claim C7 as amended.  With the raw-return flag unset the accelerated
calculator returns: in distributed mode the 2-dimensional engine row table
together with the engine-reported row count and feature size 4; in all
other modes a 4-dimensional array together with the total grid-point count
and feature size 4 or 1. -/
theorem C7_amended_return_contract :
    ∀ (mpi : Bool) (cell : Cell3) (nx ny nz : ℕ) (ggrid : NpArray2)
      (p : Params) (fpl0 : Option ℕ),
      (mpi = true →
        (calculateLammps mpi false cell nx ny nz ggrid p fpl0).1.data.ndim = 2
        ∧ (calculateLammps mpi false cell nx ny nz ggrid p fpl0).1.count
            = some ggrid.rows
        ∧ (calculateLammps mpi false cell nx ny nz ggrid p
            fpl0).1.fingerprint_length = some 4)
      ∧ (mpi = false →
        (calculateLammps mpi false cell nx ny nz ggrid p fpl0).1.data.ndim = 4
        ∧ (calculateLammps mpi false cell nx ny nz ggrid p fpl0).1.count
            = some (nx * ny * nz)
        ∧ ((calculateLammps mpi false cell nx ny nz ggrid p
              fpl0).1.fingerprint_length = some 4
            ∨ (calculateLammps mpi false cell nx ny nz ggrid p
              fpl0).1.fingerprint_length = some 1)) := by
  intro mpi cell nx ny nz ggrid p fpl0
  constructor
  · rintro rfl
    exact ⟨rfl, rfl, rfl⟩
  · rintro rfl
    cases hx : p.descriptors_contain_xyz <;>
      simp [calculateLammps, NdResult.ndim, hx]

/-- Witness for C7 as amended: both modes at a concrete input. -/
theorem C7_witness :
    ((calculateLammps true false ⟨⟨1, 0, 0⟩, ⟨0, 1, 0⟩, ⟨0, 0, 1⟩⟩ 2 2 2
        ⟨5, 7, fun _ _ => 0⟩ ⟨some 1, 1, true⟩ none).1.count = some 5)
    ∧ ((calculateLammps false false ⟨⟨1, 0, 0⟩, ⟨0, 1, 0⟩, ⟨0, 0, 1⟩⟩ 2 2 2
        ⟨5, 7, fun _ _ => 0⟩ ⟨some 1, 1, true⟩ none).1.data.ndim = 4) :=
  ⟨((C7_amended_return_contract true ⟨⟨1, 0, 0⟩, ⟨0, 1, 0⟩, ⟨0, 0, 1⟩⟩ 2 2 2
      ⟨5, 7, fun _ _ => 0⟩ ⟨some 1, 1, true⟩ none).1 rfl).2.1,
   ((C7_amended_return_contract false ⟨⟨1, 0, 0⟩, ⟨0, 1, 0⟩, ⟨0, 0, 1⟩⟩ 2 2 2
      ⟨5, 7, fun _ _ => 0⟩ ⟨some 1, 1, true⟩ none).2 rfl).1⟩

/-- Claim C8.  For an orthorhombic cell, the direct calculator's grid
point `(i, j, k)` has coordinate channels equal to the voxel diagonal
multiplied componentwise by `(i, j, k)`, which unfolds to
`(cell[0,0]/nx * i, cell[1,1]/ny * j, cell[2,2]/nz * k)`. -/
theorem C8_ortho_coord_is_voxel_diag_times_ijk :
    ∀ (cell : Cell3) (posns : List Vec3) (nx ny nz i j k : ℕ),
      i < nx → j < ny → k < nz →
      gridCoord ⟨cell, true, posns⟩ nx ny nz i j k
        = ⟨(voxelOf cell nx ny nz).r0.x * i,
           (voxelOf cell nx ny nz).r1.y * j,
           (voxelOf cell nx ny nz).r2.z * k⟩
      ∧ gridCoord ⟨cell, true, posns⟩ nx ny nz i j k
        = ⟨cell.r0.x / nx * i, cell.r1.y / ny * j, cell.r2.z / nz * k⟩ := by
  intro cell posns nx ny nz i j k hi hj hk
  exact ⟨rfl, rfl⟩

/-- Witness for C8 at a concrete cell and grid index. -/
theorem C8_witness :
    gridCoord ⟨⟨⟨2, 0, 0⟩, ⟨0, 4, 0⟩, ⟨0, 0, 6⟩⟩, true, []⟩ 2 2 3 1 0 2
      = ⟨(voxelOf ⟨⟨2, 0, 0⟩, ⟨0, 4, 0⟩, ⟨0, 0, 6⟩⟩ 2 2 3).r0.x * 1,
         (voxelOf ⟨⟨2, 0, 0⟩, ⟨0, 4, 0⟩, ⟨0, 0, 6⟩⟩ 2 2 3).r1.y * 0,
         (voxelOf ⟨⟨2, 0, 0⟩, ⟨0, 4, 0⟩, ⟨0, 0, 6⟩⟩ 2 2 3).r2.z * 2⟩ :=
  (C8_ortho_coord_is_voxel_diag_times_ijk ⟨⟨2, 0, 0⟩, ⟨0, 4, 0⟩, ⟨0, 0, 6⟩⟩
    [] 2 2 3 1 0 2 (by decide) (by decide) (by decide)).1

/-- Counterexample for claim C9: a length-1 activation list whose length
differs from the layer count (3 layers here) does not raise; it is
silently replicated to the layer count. -/
theorem C9_counterexample_length_one_padded :
    ffActivations [2, 3, 3, 1] ["ReLU"]
        = Except.ok ["ReLU", "ReLU", "ReLU"]
    ∧ (["ReLU"] : List String).length ≠ [2, 3, 3, 1].length - 1 := by
  exact ⟨rfl, by decide⟩

/-- Claim C9 as amended.  When the activation list's length is not 1 and
differs from the layer count (`len(layer_sizes) - 1`), feed-forward
construction raises: "Not enough activation layers provided." when too
short, "Too many activation layers provided." when too long; a length-1
list is instead silently replicated to the layer count. -/
theorem C9_amended_mismatch_raises :
    ∀ (layer_sizes : List ℕ) (acts : List String),
      acts.length ≠ 1 →
      ((acts.length : ℤ) < (layer_sizes.length : ℤ) - 1 →
        ffActivations layer_sizes acts
          = Except.error NetErr.notEnoughActivationLayers)
      ∧ ((layer_sizes.length : ℤ) - 1 < (acts.length : ℤ) →
        ffActivations layer_sizes acts
          = Except.error NetErr.tooManyActivationLayers) := by
  intro layer_sizes acts h1
  simp only [ffActivations]
  rw [if_neg h1]
  constructor
  · intro h2
    rw [if_pos h2]
  · intro h2
    rw [if_neg (not_lt.mpr (le_of_lt h2)), if_pos h2]

/-- Witness for C9 as amended: too-short and too-long lists both raise. -/
theorem C9_witness :
    ffActivations [2, 3, 3, 1] ["ReLU", "Tanh"]
        = Except.error NetErr.notEnoughActivationLayers
    ∧ ffActivations [2, 3, 1] ["ReLU", "Tanh", "ReLU"]
        = Except.error NetErr.tooManyActivationLayers :=
  ⟨(C9_amended_mismatch_raises [2, 3, 3, 1] ["ReLU", "Tanh"]
      (by decide)).1 (by decide),
   (C9_amended_mismatch_raises [2, 3, 1] ["ReLU", "Tanh", "ReLU"]
      (by decide)).2 (by decide)⟩

/-- Counterexample for claim C10: `convert_units` also passes the array
through for the Python value `None`, which is not the string "None", so
the string "None" is not the single accepted unit argument. -/
theorem C10_counterexample_none_passes :
    convert_units [1, 2] none = Except.ok [1, 2]
    ∧ (none : Option String) ≠ some "None" :=
  ⟨rfl, by simp⟩

/-- Claim C10 as amended.  `convert_units` returns the input array
unchanged exactly when the unit argument is the string "None" or the null
value `None`, and raises for every other unit; `backconvert_units` returns
it unchanged exactly when the unit is the string "None", and raises for
every other unit. -/
theorem C10_amended_unit_gate :
    ∀ (array : List ℚ) (u : Option String),
      (convert_units array u = Except.ok array
        ↔ (u = some "None" ∨ u = none))
      ∧ (∀ r, convert_units array u = Except.ok r → r = array)
      ∧ (backconvert_units array u = Except.ok array ↔ u = some "None")
      ∧ (∀ r, backconvert_units array u = Except.ok r → r = array)
      ∧ (¬(u = some "None" ∨ u = none) →
          convert_units array u = Except.error UnitErr.unsupportedUnit)
      ∧ (u ≠ some "None" →
          backconvert_units array u = Except.error UnitErr.unsupportedUnit) := by
  intro array u
  unfold convert_units backconvert_units
  by_cases h2 : u = some "None"
  · rw [if_pos (Or.inl h2), if_pos h2]
    simp [h2]
  · by_cases h3 : u = none
    · rw [if_pos (Or.inr h3), if_neg h2]
      simp [h2, h3]
    · have h1 : ¬(u = some "None" ∨ u = none) := by
        rintro (h | h)
        exacts [h2 h, h3 h]
      rw [if_neg h1, if_neg h2]
      simp [h1, h2, h3]

/-- Witness for C10 as amended: both helpers at concrete units. -/
theorem C10_witness :
    convert_units [5] none = Except.ok [5]
    ∧ backconvert_units [5] (some "Bohr")
        = Except.error UnitErr.unsupportedUnit :=
  ⟨(C10_amended_unit_gate [5] none).1.mpr (Or.inr rfl),
   (C10_amended_unit_gate [5] (some "Bohr")).2.2.2.2.2 (by simp)⟩

end Mala
